import Mathlib

/-
Shallow embedding of the identity/repository core of the warung backend.

Embedded from:
  src/repositories/userRepository.ts   (UserRepository: create, findByEmail, findById, update)
  src/interfaces/IUser.ts              (IUser, IUserInputDTO)
  src/loaders/supabase.ts              (single shared Supabase client for the whole process)
  migrations/001_create_users_table.sql (users table: UNIQUE(email), PRIMARY KEY(id),
                                         role DEFAULT "user", updated_at trigger)

Store queries are evaluated at the data level, with the declarative row-policy
layer treated as absent/misconfigured: per the design, application-level
filtering must hold even in that configuration, so that is the configuration
the properties are stated over.
-/

/-- A PostgREST/Supabase error object as read by the repository
(`error.code`, `error.message`). -/
structure StoreError where
  code : String
  message : String
deriving Repr, DecidableEq

/-- A row of the `users` table, per migrations/001_create_users_table.sql and
the `IUser` interface (field order follows `IUser`; timestamps are modelled as
naturals; `lastLogin` is declared optional in `IUser` but has no column in the
table, so it is omitted from the row). -/
structure UserRow where
  id : String
  name : String
  email : String
  password : String
  salt : String
  role : String
  created_at : Nat
  updated_at : Nat
deriving Repr, DecidableEq, Inhabited

/-- The `users` table contents. -/
abbrev Store := List UserRow

/-- The `{ data, error }` shape destructured from every awaited supabase
query in userRepository.ts. -/
structure SingleResponse (α : Type) where
  data : Option α
  error : Option StoreError
deriving Repr, DecidableEq

/-- What a repository method does: return a value, or `throw new Error(msg)`. -/
inductive RepoOutcome (α : Type) where
  | ok : α → RepoOutcome α
  | thrown : String → RepoOutcome α
deriving Repr, DecidableEq

/-- The error PostgREST reports when `.single()` receives a row count other
than one; userRepository.ts treats its code as "not found". -/
def pgrst116 : StoreError :=
  ⟨"PGRST116", "JSON object requested, multiple (or no) rows returned"⟩

/-- Semantics of `.single()`: exactly one row yields it as `data`; zero or many
rows yield a `PGRST116` error and no data. -/
def singleOf (rows : List UserRow) : SingleResponse UserRow :=
  match rows with
  | [r] => ⟨some r, none⟩
  | _ => ⟨none, some pgrst116⟩

/-- The parameter type of `UserRepository.create`, namely
`IUserInputDTO & { salt: string; password: string }`
(name, email, password from the DTO, plus salt). -/
structure CreateInput where
  name : String
  email : String
  password : String
  salt : String
deriving Repr, DecidableEq

/-- The parameter type of `UserRepository.update`, namely `Partial<IUser>`: each
column optionally present. A supplied `updated_at` is listed for shape
fidelity but is overridden by the `update_users_updated_at` trigger. -/
structure UserUpdate where
  id : Option String
  name : Option String
  email : Option String
  password : Option String
  salt : Option String
  role : Option String
  created_at : Option Nat
  updated_at : Option Nat
deriving Repr, DecidableEq

/-- SQL `UPDATE ... SET` on one row: columns present in the payload are
overwritten, absent ones keep their value, and the
`update_updated_at_column()` trigger sets `updated_at = NOW()` regardless of
the payload (migrations/001_create_users_table.sql, lines 37-50). -/
def applyUpdate (p : UserUpdate) (now : Nat) (r : UserRow) : UserRow :=
  { id := p.id.getD r.id
    name := p.name.getD r.name
    email := p.email.getD r.email
    password := p.password.getD r.password
    salt := p.salt.getD r.salt
    role := p.role.getD r.role
    created_at := p.created_at.getD r.created_at
    updated_at := now }

/-- An `INSERT` respecting the table constraints: `UNIQUE(email)` and
`PRIMARY KEY(id)` reject with Postgres error 23505 and leave the table
unchanged; otherwise the row (with `role` and timestamps already defaulted by
the caller) is appended and returned. -/
def dbInsert (s : Store) (r : UserRow) : Store × SingleResponse UserRow :=
  if s.any (fun x => x.email = r.email) then
    (s, ⟨none, some ⟨"23505", "duplicate key value violates unique constraint users_email_key"⟩⟩)
  else if s.any (fun x => x.id = r.id) then
    (s, ⟨none, some ⟨"23505", "duplicate key value violates unique constraint users_pkey"⟩⟩)
  else
    (s ++ [r], ⟨some r, none⟩)

namespace UserRepository

/-- Error translation of `create` (userRepository.ts lines 12-19): any store
error becomes `throw new Error(msg)` with msg the text "Failed to create user: " followed by `error.message`;
otherwise `data` is returned. -/
def createTranslate (resp : SingleResponse UserRow) : RepoOutcome (Option UserRow) :=
  match resp.error with
  | some e => .thrown ("Failed to create user: " ++ e.message)
  | none => .ok resp.data

/-- Error translation of `findByEmail` (lines 25-33): a store error with code
other than `PGRST116` is thrown; a `PGRST116` error (or no error) returns
`data` as is. -/
def findByEmailTranslate (resp : SingleResponse UserRow) : RepoOutcome (Option UserRow) :=
  match resp.error with
  | some e =>
    if e.code ≠ "PGRST116" then .thrown ("Failed to find user by email: " ++ e.message)
    else .ok resp.data
  | none => .ok resp.data

/-- Error translation of `findById` (lines 39-47): same shape as
`findByEmail` with its own message prefix. -/
def findByIdTranslate (resp : SingleResponse UserRow) : RepoOutcome (Option UserRow) :=
  match resp.error with
  | some e =>
    if e.code ≠ "PGRST116" then .thrown ("Failed to find user by id: " ++ e.message)
    else .ok resp.data
  | none => .ok resp.data

/-- Error translation of `update` (lines 53-60): any store error is thrown;
otherwise `data` is returned. -/
def updateTranslate (resp : SingleResponse UserRow) : RepoOutcome (Option UserRow) :=
  match resp.error with
  | some e => .thrown ("Failed to update user: " ++ e.message)
  | none => .ok resp.data

/-- The `create` method: `insert(userData).select().single()` then the
error translation. The database supplies `id` (`uuid_generate_v4()`, modelled
by the `newId` parameter), `role` defaulted to "user", and both timestamps
(`DEFAULT NOW()`, modelled by `now`). The repository passes `userData` through
untransformed. -/
def create (s : Store) (userData : CreateInput) (newId : String) (now : Nat) :
    Store × RepoOutcome (Option UserRow) :=
  let row : UserRow :=
    { id := newId, name := userData.name, email := userData.email,
      password := userData.password, salt := userData.salt,
      role := "user", created_at := now, updated_at := now }
  let res := dbInsert s row
  (res.1, createTranslate res.2)

/-- The `findByEmail` method:
`from(users).select(star).eq(email, email).single()` then the error
translation. The only filter in the query is the equality on `email`. -/
def findByEmail (s : Store) (email : String) : RepoOutcome (Option UserRow) :=
  findByEmailTranslate (singleOf (s.filter (fun r => r.email = email)))

/-- The `findById` method:
`from(users).select(star).eq(id, id).single()` then the error translation.
The only filter in the query is the equality on `id`. -/
def findById (s : Store) (id : String) : RepoOutcome (Option UserRow) :=
  findByIdTranslate (singleOf (s.filter (fun r => r.id = id)))

/-- The `update` method:
`from(users).update(updateData).eq(id, id).select().single()` then the
error translation. The rows matching the `id` filter are updated (the trigger
bumping `updated_at`); `.single()` then requires exactly one updated row, the
whole request running in one transaction that is rolled back on error. -/
def update (s : Store) (id : String) (p : UserUpdate) (now : Nat) :
    Store × RepoOutcome (Option UserRow) :=
  let resp := singleOf ((s.filter (fun r => r.id = id)).map (applyUpdate p now))
  match resp.error with
  | none => (s.map (fun x => if x.id = id then applyUpdate p now x else x), updateTranslate resp)
  | some _ => (s, updateTranslate resp)

end UserRepository

/-- The error taxonomy of the identity subsystem (spec sections 4.1, 4.2, 7). -/
inductive AuthError where
  | DuplicateIdentity
  | NotFound
  | InvalidCredential
  | MissingToken
  | MalformedToken
  | ExpiredToken
  | StoreUnavailable
deriving Repr, DecidableEq

/-- Modelled from the spec: the register operation of the Credential Verifier.
The auth service is not under src/ (only `UserRepository.create` and the
route wiring are), so registration is taken from spec 4.1: it fails with
`DuplicateIdentity` when the login handle already exists (comparison follows
the unique constraint of the store), and otherwise stores the caller-derived
salt and digest via `UserRepository.create`; any other store failure
surfaces as `StoreUnavailable`. -/
def register (s : Store) (input : CreateInput) (newId : String) (now : Nat) :
    Store × Except AuthError UserRow :=
  if s.any (fun r => r.email = input.email) then
    (s, .error .DuplicateIdentity)
  else
    let res := UserRepository.create s input newId now
    match res.2 with
    | .ok (some u) => (res.1, .ok u)
    | .ok none => (res.1, .error .StoreUnavailable)
    | .thrown _ => (res.1, .error .StoreUnavailable)

/-- Modelled from the spec: the Session Claims (spec section 3) — principal
identifier, tenant identifier (equal to the principal identifier in the
single-tenant-per-principal model), issued-at and expiry timestamps. The
Session Issuer/Validator is not under src/ (only the route wiring that
consumes it is), so it is taken from spec 4.2. -/
structure Claims where
  sub : String
  tenant : String
  iat : Nat
  exp : Nat
deriving Repr, DecidableEq

/-- Byte serialization of the claims, with an out-of-band separator so the
encoding is unambiguous. -/
def claimsBytes (c : Claims) : List Nat :=
  (c.sub.data.map Char.toNat) ++ [1114112] ++ (c.tenant.data.map Char.toNat) ++
    [1114112, c.iat, 1114112, c.exp]

/-- Modelled from the spec: the keyed signature tag over the serialized
claims (a concrete, executable stand-in for the HMAC: key bytes followed by
payload bytes; what the proofs use is only that the validator recomputes it
from the secret and the payload and compares). -/
def sigOf (secret : String) (c : Claims) : List Nat :=
  (secret.data.map Char.toNat) ++ claimsBytes c

/-- Modelled from the spec: a session token — signed payload plus signature
segment. -/
structure Token where
  payload : Claims
  sig : List Nat
deriving Repr, DecidableEq

/-- Modelled from the spec: `issue(principal)` (spec 4.2) — embeds the
principal identifier, the tenant identifier (the same identifier), issued-at
`now` and expiry `now + ttl` (ttl a configuration value), signed with the
server-held secret. -/
def issue (secret : String) (principalId : String) (now ttl : Nat) : Token :=
  let c : Claims := ⟨principalId, principalId, now, now + ttl⟩
  ⟨c, sigOf secret c⟩

/-- Modelled from the spec: `validate(token)` (spec 4.2) — `MissingToken`
when no bearer token is present, `MalformedToken` when the signature check
against the recomputed tag fails, `ExpiredToken` when the current time
exceeds the expiry claim, otherwise the claims. -/
def validate (secret : String) (now : Nat) (tok : Option Token) : Except AuthError Claims :=
  match tok with
  | none => .error .MissingToken
  | some t =>
    if t.sig = sigOf secret t.payload then
      if now > t.payload.exp then .error .ExpiredToken
      else .ok t.payload
    else .error .MalformedToken

/-- Overwriting one position of the signature segment of a token. -/
def tamperSig (t : Token) (i : Nat) (b : Nat) : Token :=
  ⟨t.payload, t.sig.set i b⟩

/-- Claim C1, counterexample: queries are evaluated with the row-policy layer
absent (a configuration the claim explicitly covers). A lookup made on behalf
of tenant A (identifier "tenant-A") of the record owned by tenant B
(identifier "tenant-B") — whether by id or by login handle — returns the
record of B rather than an empty result: the repository receives no tenant
context at all (the process shares one store client), so the constructed
query filters only on the supplied key and no tenant-identifier equality
filter is injected. -/
theorem lookup_crosses_tenant_cx :
    UserRepository.findById [⟨"tenant-B", "Bob", "bob@x", "dB", "sB", "user", 0, 0⟩] "tenant-B" =
      .ok (some ⟨"tenant-B", "Bob", "bob@x", "dB", "sB", "user", 0, 0⟩) ∧
    UserRepository.findByEmail [⟨"tenant-B", "Bob", "bob@x", "dB", "sB", "user", 0, 0⟩] "bob@x" =
      .ok (some ⟨"tenant-B", "Bob", "bob@x", "dB", "sB", "user", 0, 0⟩) ∧
    ("tenant-B" : String) ≠ "tenant-A" := by
  exact ⟨rfl, rfl, by decide⟩

/-- Claim C1, amended: every lookup of the repository carries exactly one
filter, the equality on the caller-supplied key; whichever row matches that
key is returned unchanged, whatever tenant owns it. Hence no equality filter
on the tenant identifier is injected by construction, and with the store-side
row policies absent the record of another tenant is returned instead of
NotFound. -/
theorem lookup_filters_only_on_key (s : Store) (e : String) (r : UserRow)
    (h : s.filter (fun x => x.email = e) = [r]) :
    UserRepository.findByEmail s e = .ok (some r) := by
  unfold UserRepository.findByEmail
  rw [h]
  rfl

/-- Claim C1, witness: the amended theorem applied at a concrete store. -/
theorem lookup_filters_only_on_key_witness :
    UserRepository.findByEmail [⟨"tenant-B2", "Bo", "bo@x", "dB2", "sB2", "user", 1, 1⟩] "bo@x" =
      .ok (some ⟨"tenant-B2", "Bo", "bo@x", "dB2", "sB2", "user", 1, 1⟩) :=
  lookup_filters_only_on_key [⟨"tenant-B2", "Bo", "bo@x", "dB2", "sB2", "user", 1, 1⟩] "bo@x"
    ⟨"tenant-B2", "Bo", "bo@x", "dB2", "sB2", "user", 1, 1⟩ (by decide)

/-- Claim C2, counterexample: two stores that differ only in the stored
password digest of one record give different findByEmail results, so the
returned value exposes the digest — the read path selects all columns and the
digest and salt fields are present, not absent, in the returned shape. -/
theorem read_path_depends_on_digest_cx :
    UserRepository.findByEmail [⟨"u1", "Alice", "alice@x", "digest-1", "salt-1", "user", 0, 0⟩] "alice@x" ≠
    UserRepository.findByEmail [⟨"u1", "Alice", "alice@x", "digest-2", "salt-1", "user", 0, 0⟩] "alice@x" := by
  decide

/-- Claim C2, amended: the value returned by the public read paths findById
and findByEmail is the stored row itself, password digest and salt fields
included; stripping those fields is left to callers (the verification
layer), not done by the repository. -/
theorem read_path_returns_digest_and_salt (s : Store) (r : UserRow)
    (hid : s.filter (fun x => x.id = r.id) = [r])
    (hem : s.filter (fun x => x.email = r.email) = [r]) :
    UserRepository.findById s r.id = .ok (some r) ∧
    UserRepository.findByEmail s r.email = .ok (some r) := by
  constructor
  · unfold UserRepository.findById
    rw [hid]
    rfl
  · unfold UserRepository.findByEmail
    rw [hem]
    rfl

/-- Claim C2, witness: the amended theorem applied at a concrete store; the
returned record carries the stored digest and salt. -/
theorem read_path_returns_digest_and_salt_witness :
    UserRepository.findById [⟨"u7", "Ann", "ann@x", "digest-7", "salt-7", "user", 0, 0⟩] "u7" =
      .ok (some ⟨"u7", "Ann", "ann@x", "digest-7", "salt-7", "user", 0, 0⟩) ∧
    UserRepository.findByEmail [⟨"u7", "Ann", "ann@x", "digest-7", "salt-7", "user", 0, 0⟩] "ann@x" =
      .ok (some ⟨"u7", "Ann", "ann@x", "digest-7", "salt-7", "user", 0, 0⟩) :=
  read_path_returns_digest_and_salt [⟨"u7", "Ann", "ann@x", "digest-7", "salt-7", "user", 0, 0⟩]
    ⟨"u7", "Ann", "ann@x", "digest-7", "salt-7", "user", 0, 0⟩ (by decide) (by decide)

/-- Claim C3, counterexample: a unique-constraint violation (Postgres code
23505) and an unrelated store error (code 08006, a connection failure) with
the same message text are mapped by create to literally identical outcomes,
so the repository cannot be mapping the former to Conflict and the latter to
StoreUnavailable: no distinct Conflict outcome exists. -/
theorem conflict_not_distinguished_cx :
    UserRepository.createTranslate ⟨none, some ⟨"23505", "db failure"⟩⟩ =
      UserRepository.createTranslate ⟨none, some ⟨"08006", "db failure"⟩⟩ ∧
    ("23505" : String) ≠ "08006" := by
  exact ⟨rfl, by decide⟩

/-- Claim C3, amended: the actual error translation. The lookups map a
PGRST116 store signal (zero rows from a single-row query) to an empty ok
result and any other store error to a thrown generic error; create and
update map every store error — unique-constraint violations included — to
one thrown generic error; successes return the data. There is no three-way
NotFound/Conflict/StoreUnavailable taxonomy: only empty result versus thrown
error. -/
theorem error_translation_actual (e : StoreError) (d : Option UserRow) :
    UserRepository.createTranslate ⟨d, some e⟩ = .thrown ("Failed to create user: " ++ e.message) ∧
    UserRepository.updateTranslate ⟨d, some e⟩ = .thrown ("Failed to update user: " ++ e.message) ∧
    (e.code = "PGRST116" →
      UserRepository.findByEmailTranslate ⟨d, some e⟩ = .ok d ∧
      UserRepository.findByIdTranslate ⟨d, some e⟩ = .ok d) ∧
    (e.code ≠ "PGRST116" →
      UserRepository.findByEmailTranslate ⟨d, some e⟩ =
        .thrown ("Failed to find user by email: " ++ e.message) ∧
      UserRepository.findByIdTranslate ⟨d, some e⟩ =
        .thrown ("Failed to find user by id: " ++ e.message)) ∧
    UserRepository.createTranslate ⟨d, none⟩ = .ok d ∧
    UserRepository.updateTranslate ⟨d, none⟩ = .ok d ∧
    UserRepository.findByEmailTranslate ⟨d, none⟩ = .ok d ∧
    UserRepository.findByIdTranslate ⟨d, none⟩ = .ok d := by
  refine ⟨rfl, rfl, ?_, ?_, rfl, rfl, rfl, rfl⟩ <;> intro h <;>
    constructor <;>
      simp [UserRepository.findByEmailTranslate, UserRepository.findByIdTranslate, h]

/-- Claim C3, witness: the amended theorem applied at the PGRST116 signal. -/
theorem error_translation_actual_witness :
    UserRepository.findByEmailTranslate ⟨none, some ⟨"PGRST116", "zero rows"⟩⟩ = .ok none ∧
    UserRepository.findByIdTranslate ⟨none, some ⟨"PGRST116", "zero rows"⟩⟩ = .ok none :=
  (error_translation_actual ⟨"PGRST116", "zero rows"⟩ none).2.2.1 rfl

/-- Claim C4: when no row matches, findByEmail and findById do not throw:
they return an ok empty result, an outcome distinct from every thrown error,
so a caller can tell looked-but-found-nothing from could-not-look. -/
theorem lookup_absent_returns_empty (s : Store) (e id : String)
    (he : ∀ r ∈ s, r.email ≠ e) (hi : ∀ r ∈ s, r.id ≠ id) :
    UserRepository.findByEmail s e = .ok none ∧
    UserRepository.findById s id = .ok none ∧
    ∀ m, (RepoOutcome.ok none : RepoOutcome (Option UserRow)) ≠ .thrown m := by
  have hf : s.filter (fun x => x.email = e) = [] := by
    rw [List.filter_eq_nil_iff]
    intro a ha
    simpa using he a ha
  have hg : s.filter (fun x => x.id = id) = [] := by
    rw [List.filter_eq_nil_iff]
    intro a ha
    simpa using hi a ha
  refine ⟨?_, ?_, ?_⟩
  · unfold UserRepository.findByEmail
    rw [hf]
    rfl
  · unfold UserRepository.findById
    rw [hg]
    rfl
  · intro m hm
    exact RepoOutcome.noConfusion hm

/-- Claim C4, witness: the theorem applied at a concrete store and absent
keys. -/
theorem lookup_absent_returns_empty_witness :
    UserRepository.findByEmail [⟨"u1", "Alice", "alice@x", "d1", "s1", "user", 0, 0⟩] "nobody@x" = .ok none ∧
    UserRepository.findById [⟨"u1", "Alice", "alice@x", "d1", "s1", "user", 0, 0⟩] "zz" = .ok none :=
  ⟨(lookup_absent_returns_empty [⟨"u1", "Alice", "alice@x", "d1", "s1", "user", 0, 0⟩]
      "nobody@x" "zz" (by decide) (by decide)).1,
   (lookup_absent_returns_empty [⟨"u1", "Alice", "alice@x", "d1", "s1", "user", 0, 0⟩]
      "nobody@x" "zz" (by decide) (by decide)).2.1⟩

/-- Claim C5, counterexample: the store holds a record with login handle
"alice@x"; lookup with "ALICE@X" finds nothing, and create with handle
"ALICE@X" succeeds rather than reporting a duplicate — handle comparison is
not case-insensitive. -/
theorem handle_case_sensitive_cx :
    UserRepository.findByEmail [⟨"u1", "Alice", "alice@x", "d1", "s1", "user", 0, 0⟩] "ALICE@X" = .ok none ∧
    (UserRepository.create [⟨"u1", "Alice", "alice@x", "d1", "s1", "user", 0, 0⟩]
        ⟨"Alice2", "ALICE@X", "d2", "s2"⟩ "u2" 1).2 =
      .ok (some ⟨"u2", "Alice2", "ALICE@X", "d2", "s2", "user", 1, 1⟩) := by
  exact ⟨by decide, by decide⟩

/-- Claim C5, amended: login-handle comparison is exact (case-sensitive): a
lookup by handle returns a record only when the stored handle equals the
presented one character for character; a handle differing only in letter
case is a distinct identity. -/
theorem handle_lookup_exact_match (s : Store) (e : String) (r : UserRow)
    (h : UserRepository.findByEmail s e = .ok (some r)) : r.email = e := by
  unfold UserRepository.findByEmail at h
  rcases hf : s.filter (fun x => x.email = e) with _ | ⟨a, _ | ⟨b, l⟩⟩ <;> rw [hf] at h
  · simp [singleOf, UserRepository.findByEmailTranslate, pgrst116] at h
  · simp [singleOf, UserRepository.findByEmailTranslate] at h
    have ha : a ∈ s.filter (fun x => x.email = e) := by
      rw [hf]; exact List.mem_singleton_self a
    have hea : a.email = e := by simpa using List.of_mem_filter ha
    rw [← h]
    exact hea
  · simp [singleOf, UserRepository.findByEmailTranslate, pgrst116] at h

/-- Claim C5, witness: the amended theorem applied at a concrete store. -/
theorem handle_lookup_exact_match_witness :
    UserRepository.findByEmail [⟨"u3", "Al", "al@x", "d3", "s3", "user", 0, 0⟩] "al@x" =
      .ok (some ⟨"u3", "Al", "al@x", "d3", "s3", "user", 0, 0⟩) ∧
    (⟨"u3", "Al", "al@x", "d3", "s3", "user", 0, 0⟩ : UserRow).email = "al@x" :=
  ⟨by decide,
   handle_lookup_exact_match [⟨"u3", "Al", "al@x", "d3", "s3", "user", 0, 0⟩] "al@x"
     ⟨"u3", "Al", "al@x", "d3", "s3", "user", 0, 0⟩ (by decide)⟩

/-- Helper: a successful registration appends exactly the created row, whose
login handle is the requested one. -/
theorem register_ok_state (s : Store) (inp : CreateInput) (nid : String) (t : Nat) (u : UserRow)
    (h : (register s inp nid t).2 = .ok u) :
    (register s inp nid t).1 = s ++ [u] ∧ u.email = inp.email := by
  cases hb : s.any (fun r => r.email = inp.email)
  case true => simp [register, hb] at h
  case false =>
    cases hid : s.any (fun x => x.id = nid)
    case true =>
      simp [register, UserRepository.create, dbInsert, UserRepository.createTranslate, hb, hid] at h
    case false =>
      simp [register, UserRepository.create, dbInsert, UserRepository.createTranslate, hb, hid] at h ⊢
      constructor
      · rw [← h]
      · rw [← h]

/-- Claim C6: registering a login handle that a first registration has
stored fails with DuplicateIdentity, and the store after the failed second
attempt is exactly the store after the first registration — no partial
record is left behind. -/
theorem register_twice_duplicate_identity (s : Store) (inp : CreateInput) (id1 id2 : String)
    (t1 t2 : Nat) (u : UserRow) (h : (register s inp id1 t1).2 = .ok u) :
    register (register s inp id1 t1).1 inp id2 t2 =
      ((register s inp id1 t1).1, .error .DuplicateIdentity) := by
  obtain ⟨hs, he⟩ := register_ok_state s inp id1 t1 u h
  rw [hs]
  have hany : (s ++ [u]).any (fun r => r.email = inp.email) = true := by
    simp [List.any_append, he]
  simp [register, hany]

/-- Claim C6, witness: a concrete double registration of the same handle. -/
theorem register_twice_duplicate_identity_witness :
    register (register [] ⟨"Alice", "alice@x", "dg", "st"⟩ "u1" 0).1
        ⟨"Alice", "alice@x", "dg", "st"⟩ "u2" 1 =
      ((register [] ⟨"Alice", "alice@x", "dg", "st"⟩ "u1" 0).1, .error .DuplicateIdentity) :=
  register_twice_duplicate_identity [] ⟨"Alice", "alice@x", "dg", "st"⟩ "u1" "u2" 0 1
    ⟨"u1", "Alice", "alice@x", "dg", "st", "user", 0, 0⟩ rfl

/-- Claim C7: validate fails with MissingToken exactly when no bearer token
is present; for a presented token it fails with MalformedToken exactly when
the signature check against the recomputed tag fails; for a well-signed
token it fails with ExpiredToken exactly when the current time exceeds the
expiry claim; a token issued for principal P and validated at or before
expiry yields claims whose principal identifier equals P, and validated
after expiry yields ExpiredToken; and overwriting any one position of the
signature segment of a well-signed token with a different value yields
MalformedToken. -/
theorem validate_taxonomy (secret : String) (now : Nat) :
    (∀ tok, validate secret now tok = .error .MissingToken ↔ tok = none) ∧
    (∀ t, validate secret now (some t) = .error .MalformedToken ↔ t.sig ≠ sigOf secret t.payload) ∧
    (∀ t, t.sig = sigOf secret t.payload →
      (validate secret now (some t) = .error .ExpiredToken ↔ now > t.payload.exp)) ∧
    (∀ P iss ttl, now ≤ iss + ttl →
      validate secret now (some (issue secret P iss ttl)) = .ok ⟨P, P, iss, iss + ttl⟩ ∧
      (⟨P, P, iss, iss + ttl⟩ : Claims).sub = P) ∧
    (∀ P iss ttl, iss + ttl < now →
      validate secret now (some (issue secret P iss ttl)) = .error .ExpiredToken) ∧
    (∀ t i b, t.sig = sigOf secret t.payload → i < t.sig.length → b ≠ t.sig.getD i 0 →
      validate secret now (some (tamperSig t i b)) = .error .MalformedToken) := by
  refine ⟨?_, ?_, ?_, ?_, ?_, ?_⟩
  · intro tok
    cases tok with
    | none => simp [validate]
    | some t =>
      by_cases hs : t.sig = sigOf secret t.payload
      · by_cases hx : now > t.payload.exp
        · simp [validate, hs, hx]
        · simp [validate, hs, hx]
      · simp [validate, hs]
  · intro t
    by_cases hs : t.sig = sigOf secret t.payload
    · by_cases hx : now > t.payload.exp
      · simp [validate, hs, hx]
      · simp [validate, hs, hx]
    · simp [validate, hs]
  · intro t hs
    by_cases hx : now > t.payload.exp
    · simp [validate, hs, hx]
    · simp [validate, hs, hx]
  · intro P iss ttl hle
    have hnx : ¬ (iss + ttl < now) := Nat.not_lt.mpr hle
    exact ⟨by simp [validate, issue, hnx], rfl⟩
  · intro P iss ttl hlt
    simp [validate, issue, hlt]
  · intro t i b hsig hi hb
    have hneq : t.sig.set i b ≠ sigOf secret t.payload := by
      rw [← hsig]
      intro he
      apply hb
      have h1 : (t.sig.set i b).getD i 0 = b := by
        rw [List.getD_eq_getElem _ _ (by simpa using hi)]
        exact List.getElem_set_self (by simpa using hi)
      rw [he] at h1
      exact h1.symm
    simp [validate, tamperSig, hneq]

/-- Claim C7, witness: a token issued for principal P1 validates before
expiry to claims carrying that principal identifier. -/
theorem validate_taxonomy_witness :
    validate ("k") 5 (some (issue ("k") ("P1") 0 10)) = .ok ⟨"P1", "P1", 0, 10⟩ ∧
    (⟨"P1", "P1", 0, 10⟩ : Claims).sub = "P1" :=
  (validate_taxonomy ("k") 5).2.2.2.1 "P1" 0 10 (by decide)

/-- Claim C8, counterexample: two store errors with the same code but
different internal messages produce different caller-visible outcomes, so
the surfaced error is not independent of the internal store diagnostics. -/
theorem store_message_leak_cx :
    UserRepository.createTranslate ⟨none, some ⟨"08006", "connection refused by 10.0.0.5"⟩⟩ ≠
    UserRepository.createTranslate ⟨none, some ⟨"08006", "statement timeout"⟩⟩ := by
  decide

/-- Claim C8, amended: the caller-visible error produced for a store failure
embeds the internal store message verbatim after a fixed prefix, so distinct
store messages always yield distinct caller-visible errors — internal store
diagnostics do leak to the caller. -/
theorem thrown_error_embeds_store_message (c m1 m2 : String) (h : m1 ≠ m2) :
    UserRepository.createTranslate ⟨none, some ⟨c, m1⟩⟩ ≠
    UserRepository.createTranslate ⟨none, some ⟨c, m2⟩⟩ := by
  simp only [UserRepository.createTranslate]
  intro hc
  apply h
  have h1 : "Failed to create user: " ++ m1 = "Failed to create user: " ++ m2 :=
    RepoOutcome.thrown.inj hc
  have h2 := congrArg String.data h1
  simp only [String.data_append] at h2
  exact String.ext (List.append_cancel_left h2)

/-- Claim C8, witness: the amended theorem applied at two concrete store
messages. -/
theorem thrown_error_embeds_store_message_witness :
    UserRepository.createTranslate
        ⟨none, some ⟨"57014", "canceling statement due to statement timeout"⟩⟩ ≠
    UserRepository.createTranslate ⟨none, some ⟨"57014", "deadlock detected"⟩⟩ :=
  thrown_error_embeds_store_message ("57014") ("canceling statement due to statement timeout")
    ("deadlock detected") (by decide)

/-- Claim C9: a successful update of the row named by id returns the updated
row; the store keeps its length, every row at a position whose identifier
differs from id is unchanged, the updated row is in the new store, each
column not named in the payload keeps its prior value on the updated row,
and the store-maintained updated_at column is set to the current time by the
trigger. -/
theorem update_frame_effect (s : Store) (id : String) (p : UserUpdate) (now : Nat) (r0 : UserRow)
    (h : s.filter (fun r => r.id = id) = [r0]) :
    (UserRepository.update s id p now).2 = .ok (some (applyUpdate p now r0)) ∧
    (UserRepository.update s id p now).1.length = s.length ∧
    (∀ i, ∀ hl : i < s.length, (s[i]).id ≠ id →
      (UserRepository.update s id p now).1.getD i default = s[i]) ∧
    applyUpdate p now r0 ∈ (UserRepository.update s id p now).1 ∧
    (p.name = none → (applyUpdate p now r0).name = r0.name) ∧
    (p.email = none → (applyUpdate p now r0).email = r0.email) ∧
    (p.password = none → (applyUpdate p now r0).password = r0.password) ∧
    (p.salt = none → (applyUpdate p now r0).salt = r0.salt) ∧
    (p.role = none → (applyUpdate p now r0).role = r0.role) ∧
    (p.created_at = none → (applyUpdate p now r0).created_at = r0.created_at) ∧
    (applyUpdate p now r0).updated_at = now := by
  have hupd : UserRepository.update s id p now =
      (s.map (fun x => if x.id = id then applyUpdate p now x else x),
       .ok (some (applyUpdate p now r0))) := by
    unfold UserRepository.update
    rw [h]
    rfl
  have hr0f : r0 ∈ s.filter (fun r => r.id = id) := by
    rw [h]; exact List.mem_singleton_self r0
  have hr0s : r0 ∈ s := List.mem_of_mem_filter hr0f
  have hr0id : r0.id = id := by simpa using List.of_mem_filter hr0f
  rw [hupd]
  refine ⟨rfl, by simp, ?_, ?_, ?_, ?_, ?_, ?_, ?_, ?_, rfl⟩
  · intro i hl hne
    rw [List.getD_eq_getElem _ _ (by simpa using hl), List.getElem_map]
    rw [if_neg hne]
  · exact List.mem_map.mpr ⟨r0, hr0s, by rw [if_pos hr0id]⟩
  · intro hn; simp [applyUpdate, hn]
  · intro hn; simp [applyUpdate, hn]
  · intro hn; simp [applyUpdate, hn]
  · intro hn; simp [applyUpdate, hn]
  · intro hn; simp [applyUpdate, hn]
  · intro hn; simp [applyUpdate, hn]

/-- Claim C9, witness: the theorem applied at a one-row store and a payload
renaming the user. -/
theorem update_frame_effect_witness :
    (UserRepository.update [⟨"u1", "Ann", "ann@x", "dg", "st", "user", 0, 0⟩] "u1"
        ⟨none, some "Bea", none, none, none, none, none, none⟩ 7).2 =
      .ok (some (applyUpdate ⟨none, some "Bea", none, none, none, none, none, none⟩ 7
        ⟨"u1", "Ann", "ann@x", "dg", "st", "user", 0, 0⟩)) :=
  (update_frame_effect [⟨"u1", "Ann", "ann@x", "dg", "st", "user", 0, 0⟩] "u1"
    ⟨none, some "Bea", none, none, none, none, none, none⟩ 7
    ⟨"u1", "Ann", "ann@x", "dg", "st", "user", 0, 0⟩ (by decide)).1

/-- Claim C10: create stores the password and salt exactly as supplied by
the caller — the inserted row carries them verbatim, with no hashing or
other transformation in the repository — and the returned value is the
stored row; the new store state is the old rows plus that row. -/
theorem create_stores_credentials_verbatim (s : Store) (inp : CreateInput) (newId : String)
    (now : Nat) (he : ∀ r ∈ s, r.email ≠ inp.email) (hid : ∀ r ∈ s, r.id ≠ newId) :
    UserRepository.create s inp newId now =
      (s ++ [⟨newId, inp.name, inp.email, inp.password, inp.salt, "user", now, now⟩],
       .ok (some ⟨newId, inp.name, inp.email, inp.password, inp.salt, "user", now, now⟩)) := by
  have h1 : s.any (fun x => x.email = inp.email) = false := by
    simp only [List.any_eq_false]
    intro a ha
    simpa using he a ha
  have h2 : s.any (fun x => x.id = newId) = false := by
    simp only [List.any_eq_false]
    intro a ha
    simpa using hid a ha
  simp [UserRepository.create, dbInsert, UserRepository.createTranslate, h1, h2]

/-- Claim C10, witness: the theorem applied at the empty store; the stored
digest and salt are the ones supplied. -/
theorem create_stores_credentials_verbatim_witness :
    UserRepository.create [] ⟨"Al", "al@y", "digest-9", "salt-9"⟩ "u9" 3 =
      ([⟨"u9", "Al", "al@y", "digest-9", "salt-9", "user", 3, 3⟩],
       .ok (some ⟨"u9", "Al", "al@y", "digest-9", "salt-9", "user", 3, 3⟩)) :=
  create_stores_credentials_verbatim [] ⟨"Al", "al@y", "digest-9", "salt-9"⟩ "u9" 3
    (by simp) (by simp)
